import Mathlib

/-!
Shallow embedding of the moralogy-engine core (threshold classifier, budget
gate, append-only registry, decision orchestrator, debate loop), translated
from the Python sources `src/thresholds.py`, `src/safelock.py`,
`src/registry.py`, `src/engine.py` and `src/debate.py`.

Conventions of the embedding:
* Python floats are modelled as rationals (`ℚ`); the arithmetic used by the
  code (comparison, min/max, abs, subtraction, averaging) is exact on the
  inputs appearing in the claims.
* Python dicts with known keys are modelled as structures; a `dict.get`
  with a default becomes `Option.getD`.
* `uuid.uuid4()` is modelled by a fresh-identifier counter threaded through
  the engine state; the only property the code relies on is freshness
  (a newly generated identifier differs from every previously generated one).
* Mutation of objects becomes explicit state passing: a method that mutates
  returns the updated value alongside its result.
-/

/- ------------------------------------------------------------------ -/
/- src/thresholds.py                                                   -/
/- ------------------------------------------------------------------ -/

/-- Embeds `class Threshold(str, Enum)` of `src/thresholds.py`. -/
inductive Threshold where
  | none
  | risk
  | threat
  | damage
deriving DecidableEq, Repr

/-- The numeric context handed to `classify_threshold`: a Python dict
read through `.get` with defaults, so each field is optional. -/
structure Context where
  agency_loss : Option ℚ := Option.none
  entropy_delta : Option ℚ := Option.none
  imminent_threat : Option Bool := Option.none
deriving DecidableEq, Repr

/-- Embeds `ThresholdAssessment` dataclass (the `metadata` field carries the
originating context, as in the source). -/
structure ThresholdAssessment where
  threshold : Threshold
  agency_loss : ℚ
  entropy_delta : ℚ
  justification : String
  metadata : Context
deriving DecidableEq, Repr

/-- Embeds `assess_agency_loss`: `min(max(context.get("agency_loss", 0.0), 0.0), 1.0)`. -/
def assess_agency_loss (context : Context) : ℚ :=
  min (max (context.agency_loss.getD 0) 0) 1

/-- Embeds `assess_entropy_delta`: `float(context.get("entropy_delta", 0.0))`. -/
def assess_entropy_delta (context : Context) : ℚ :=
  context.entropy_delta.getD 0

/-- Embeds `classify_threshold` of `src/thresholds.py`. -/
def classify_threshold (context : Context) : ThresholdAssessment :=
  let agency_loss := assess_agency_loss context
  let entropy_delta := assess_entropy_delta context
  if context.imminent_threat.getD false then
    { threshold := Threshold.threat
      agency_loss := agency_loss
      entropy_delta := entropy_delta
      justification := "Imminent threat detected; immediate neutralization required."
      metadata := context }
  else if agency_loss ≥ 0.6 then
    { threshold := Threshold.damage
      agency_loss := agency_loss
      entropy_delta := entropy_delta
      justification := "Agency already diminished; restoration and prevention required."
      metadata := context }
  else if agency_loss ≥ 0.2 ∨ entropy_delta > 0.3 then
    { threshold := Threshold.risk
      agency_loss := agency_loss
      entropy_delta := entropy_delta
      justification := "Significant risk detected; early intervention justified."
      metadata := context }
  else
    { threshold := Threshold.none
      agency_loss := agency_loss
      entropy_delta := entropy_delta
      justification := "No actionable threshold crossed."
      metadata := context }

/-- Embeds `action_for_threshold` of `src/thresholds.py`. -/
def action_for_threshold (assessment : ThresholdAssessment) : String :=
  if assessment.threshold = Threshold.threat then
    "NEUTRALIZE_IMMEDIATELY"
  else if assessment.threshold = Threshold.risk then
    "INTERVENE_FIRST"
  else if assessment.threshold = Threshold.damage then
    "RESTORE_PUNISH_REPUDIATE_PREVENT"
  else
    "NO_ACTION"

/- ------------------------------------------------------------------ -/
/- src/safelock.py                                                     -/
/- ------------------------------------------------------------------ -/

/-- Embeds `class SafelockStatus(str, Enum)`. -/
inductive SafelockStatus where
  | ACTIVE
  | DEGRADED
  | TERMINATED
deriving DecidableEq, Repr

/-- Embeds `@dataclass DivineSafelock` (capacity is a Python int). -/
structure DivineSafelock where
  capacity : Int := 0
  status : SafelockStatus := SafelockStatus.ACTIVE
  is_tainted : Bool := false
deriving DecidableEq, Repr

namespace DivineSafelock

/-- Embeds `DivineSafelock.degrade` (the `reason` argument is unused by the code). -/
def degrade (s : DivineSafelock) (reason : String) : DivineSafelock :=
  { s with status := SafelockStatus.DEGRADED, is_tainted := true }

/-- Embeds `DivineSafelock.authorize`; the mutation of `self` becomes the second
component of the returned pair. -/
def authorize (s : DivineSafelock) (cost : Int) (reason : String) :
    Bool × DivineSafelock :=
  if s.status ≠ SafelockStatus.ACTIVE then
    (false, s)
  else if cost ≤ 0 then
    (true, s)
  else if s.capacity ≤ 0 then
    (false, s)
  else if cost > s.capacity then
    (false, s.degrade reason)
  else
    (true, { s with capacity := s.capacity - cost })

/-- Embeds `DivineSafelock.terminate`. -/
def terminate (s : DivineSafelock) (reason : String) : DivineSafelock :=
  { s with status := SafelockStatus.TERMINATED, capacity := 0, is_tainted := true }

end DivineSafelock

/-- Embeds `deny_omnipotence` of `src/safelock.py`. -/
def deny_omnipotence (safelock : DivineSafelock) (requested_power : Int) :
    Bool × DivineSafelock :=
  if requested_power > 0 then
    (false, safelock)
  else
    safelock.authorize 0 "Zero-power reasoning allowed"

/- ------------------------------------------------------------------ -/
/- String helpers (Python `s.lower()` and `substr in s`)               -/
/- ------------------------------------------------------------------ -/

/-- Python `s.lower()`, on the character list of a string (ASCII case fold,
matching the characters appearing in the engine's keyword tables). -/
def lowerChars (s : String) : List Char :=
  s.data.map Char.toLower

/-- Python `needle in hay` substring containment, on character lists. -/
def containsSub (hay needle : List Char) : Bool :=
  match hay with
  | [] => needle.isEmpty
  | _ :: t => needle.isPrefixOf hay || containsSub t needle

/- ------------------------------------------------------------------ -/
/- src/engine.py : sandbox                                             -/
/- ------------------------------------------------------------------ -/

/-- Embeds `PROHIBITED_DOMAINS` of `src/engine.py` (a Python set; its iteration
order only affects which matching domain name is recorded, not whether the
domain is flagged prohibited). -/
def PROHIBITED_DOMAINS : List String := ["bioweapons", "terrorism", "genocide"]

/-- The keyword list of the bypass check in `sandbox_analyze`. -/
def BYPASS_KEYWORDS : List String := ["ignore safeguards", "override", "bypass"]

/-- The dict returned by `sandbox_analyze` (all six keys always present). -/
structure Sandbox where
  domain : String
  is_domain_prohibited : Bool
  is_bypass_attempt : Bool
  agency_loss : ℚ
  entropy_delta : ℚ
  imminent_threat : Bool
deriving DecidableEq, Repr

/-- Embeds `sandbox_analyze` of `src/engine.py`: flags domain risk and bypass
patterns, and supplies default conservative numeric estimates. -/
def sandbox_analyze (prompt : String) : Sandbox :=
  let lower := lowerChars prompt
  let domain := (PROHIBITED_DOMAINS.filter
    (fun d => containsSub lower d.data)).getLastD "general"
  { domain := domain
    is_domain_prohibited := PROHIBITED_DOMAINS.contains domain
    is_bypass_attempt := BYPASS_KEYWORDS.any (fun k => containsSub lower k.data)
    agency_loss := 0
    entropy_delta := 0
    imminent_threat := false }

/- ------------------------------------------------------------------ -/
/- src/registry.py                                                     -/
/- ------------------------------------------------------------------ -/

/-- Embeds `MoralRecord` of `src/registry.py`. The record's `record_id` (a uuid)
and `timestamp` play no role in any behaviour of the core and are omitted;
`dilemma_id` identifiers are modelled as naturals drawn from a fresh
counter (see `MoralogyEngine.run`). The `metadata` field of every record
written by the engine is `{"sandbox": sandbox}`; it is modelled by the
sandbox value itself. -/
structure MoralRecord where
  dilemma_id : Nat
  action_name : String
  threshold : Threshold
  justification : String
  guilt : Bool
  metadata_sandbox : Sandbox
deriving DecidableEq, Repr

/-- Embeds `Registry`: the append-only log `self._log`. -/
abbrev Registry := List MoralRecord

/-- Embeds `Registry.write`: append, no overwrite, no deletion. -/
def Registry.write (r : Registry) (record : MoralRecord) : Registry :=
  List.append r [record]

/-- Embeds `Registry.all`: the full audit log in insertion order. -/
def Registry.all (r : Registry) : List MoralRecord := r

/-- Embeds `Registry.by_dilemma`. -/
def Registry.by_dilemma (r : Registry) (dilemma_id : Nat) : List MoralRecord :=
  r.filter (fun rec => rec.dilemma_id = dilemma_id)

/-- Embeds `Registry.guilt_records`. -/
def Registry.guilt_records (r : Registry) : List MoralRecord :=
  r.filter (fun rec => rec.guilt)

/-- Embeds `register_decision` of `src/registry.py`, specialised to the engine's
call sites (which pass the decision's action name, justification and guilt,
a threshold string, and `{"sandbox": sandbox}` as metadata). -/
def register_decision (registry : Registry) (dilemma_id : Nat)
    (action_name : String) (justification : String) (guilt : Bool)
    (threshold : Threshold) (sandbox : Sandbox) : Registry :=
  registry.write
    { dilemma_id := dilemma_id
      action_name := action_name
      threshold := threshold
      justification := justification
      guilt := guilt
      metadata_sandbox := sandbox }

/- ------------------------------------------------------------------ -/
/- src/engine.py : orchestrator                                        -/
/- ------------------------------------------------------------------ -/

/-- The `Decision` dataclass (its `Action` field is a wrapper around the
action name; the `metadata` dict is not inspected by anything in the core
and is omitted). -/
structure Decision where
  action : String
  justification : String
  guilt : Bool
deriving DecidableEq, Repr

/-- A `context_overrides` dict passed to `MoralogyEngine.run`: an optional
value for each key of the sandbox dict (`dict.update` semantics — a present
key replaces the sandbox entry, an absent one leaves it). Keys outside the
sandbox's six influence no behaviour of the engine and are not modelled.
An empty/`None` override bag is the bag with every field absent (updating
with it is the identity, matching the `if context_overrides:` guard). -/
structure Overrides where
  domain : Option String := Option.none
  is_domain_prohibited : Option Bool := Option.none
  is_bypass_attempt : Option Bool := Option.none
  agency_loss : Option ℚ := Option.none
  entropy_delta : Option ℚ := Option.none
  imminent_threat : Option Bool := Option.none
deriving DecidableEq, Repr

/-- Embeds `sandbox.update(context_overrides)`. -/
def Sandbox.update (s : Sandbox) (o : Overrides) : Sandbox :=
  { domain := o.domain.getD s.domain
    is_domain_prohibited := o.is_domain_prohibited.getD s.is_domain_prohibited
    is_bypass_attempt := o.is_bypass_attempt.getD s.is_bypass_attempt
    agency_loss := o.agency_loss.getD s.agency_loss
    entropy_delta := o.entropy_delta.getD s.entropy_delta
    imminent_threat := o.imminent_threat.getD s.imminent_threat }

/-- The sandbox dict viewed as a `classify_threshold` context (all keys
present, so every field is `some`). -/
def Sandbox.toContext (s : Sandbox) : Context :=
  { agency_loss := some s.agency_loss
    entropy_delta := some s.entropy_delta
    imminent_threat := some s.imminent_threat }

/-- The mutable state owned by a `MoralogyEngine`: its registry and
safelock, plus the fresh-identifier counter modelling `uuid.uuid4()`. -/
structure EngineState where
  registry : Registry
  safelock : DivineSafelock
  next_uuid : Nat
deriving Repr

/-- The engine state built by `run_moralogy` in `src/main.py`:
`Registry()` empty, `DivineSafelock()` at capacity 0. -/
def EngineState.init : EngineState :=
  { registry := ([] : List MoralRecord), safelock := {}, next_uuid := 0 }

/-- The dict returned by `MoralogyEngine._finalize`. -/
structure RunResult where
  dilemma_id : Nat
  action : String
  justification : String
  guilt : Bool
  safelock_status : SafelockStatus
deriving DecidableEq, Repr

/-- Embeds `MoralogyEngine.run` of `src/engine.py`: sandbox → hard block on
prohibited domain / bypass, else safelock gate (audit only), threshold
classification, decision synthesis, registry write, finalize. -/
def MoralogyEngine.run (st : EngineState) (prompt : String)
    (context_overrides : Overrides) : RunResult × EngineState :=
  let dilemma_id := st.next_uuid
  let sandbox := (sandbox_analyze prompt).update context_overrides
  if sandbox.is_domain_prohibited || sandbox.is_bypass_attempt then
    let decision : Decision :=
      { action := "DENY"
        justification := "Sandbox blocked prohibited domain or bypass attempt."
        guilt := false }
    let registry := register_decision st.registry dilemma_id decision.action
      decision.justification decision.guilt
      (if sandbox.is_bypass_attempt then Threshold.threat else Threshold.risk)
      sandbox
    ({ dilemma_id := dilemma_id
       action := decision.action
       justification := decision.justification
       guilt := decision.guilt
       safelock_status := st.safelock.status },
     { registry := registry, safelock := st.safelock, next_uuid := st.next_uuid + 1 })
  else
    let safelock := (deny_omnipotence st.safelock 1).2
    let assessment := classify_threshold sandbox.toContext
    let action_name := action_for_threshold assessment
    let decision : Decision :=
      { action := action_name
        justification := assessment.justification
        guilt := decide (assessment.threshold = Threshold.threat ∨
                         assessment.threshold = Threshold.damage) }
    let registry := register_decision st.registry dilemma_id decision.action
      decision.justification decision.guilt assessment.threshold sandbox
    ({ dilemma_id := dilemma_id
       action := decision.action
       justification := decision.justification
       guilt := decision.guilt
       safelock_status := safelock.status },
     { registry := registry, safelock := safelock, next_uuid := st.next_uuid + 1 })

/-- A sequence of sequential deliberations on one engine, each input a
prompt together with its override bag. -/
def MoralogyEngine.runMany (st : EngineState) :
    List (String × Overrides) → List RunResult × EngineState
  | [] => ([], st)
  | (prompt, ov) :: rest =>
    let step := MoralogyEngine.run st prompt ov
    let tail := MoralogyEngine.runMany step.2 rest
    (step.1 :: tail.1, tail.2)

/- ------------------------------------------------------------------ -/
/- src/debate.py                                                       -/
/- ------------------------------------------------------------------ -/

/-- Embeds `Argument` dataclass (the fixed `text` / `violation` strings carry no
behaviour and are omitted). -/
structure Argument where
  entropy : ℚ
  axiom_consistent : Bool
deriving DecidableEq, Repr

/-- Embeds `DebateIteration` dataclass. -/
structure DebateIteration where
  iteration : Nat
  noble : Argument
  adversary : Argument
  convergence : ℚ
  paradox_detected : Bool
deriving DecidableEq, Repr

/-- Embeds `HarmonyResult` dataclass. -/
structure HarmonyResult where
  status : String
  justification : String
  final_convergence : ℚ
deriving DecidableEq, Repr

/-- Embeds `NobleEngine.argue` of `src/debate.py` (note: uses the raw, unclamped
`agency_loss` from the context dict). -/
def NobleEngine.argue (context : Context) : Argument :=
  { entropy := max 0.1 (1 - context.agency_loss.getD 0)
    axiom_consistent := decide (context.agency_loss.getD 0 ≤ 1) }

/-- Embeds `AdversaryEngine.argue` of `src/debate.py`. -/
def AdversaryEngine.argue (context : Context) : Argument :=
  { entropy := max 0.1 (1 - context.entropy_delta.getD 0)
    axiom_consistent := true }

/-- Embeds `compute_convergence` of `src/debate.py`. -/
def compute_convergence (noble adversary : Argument) : ℚ :=
  let entropy_distance := |noble.entropy - adversary.entropy|
  let penalty : ℚ := if noble.axiom_consistent = false then 0.2 else 0
  max 0 (1 - entropy_distance - penalty)

/-- Embeds `detect_paradox` of `src/debate.py`. -/
def detect_paradox (noble adversary : Argument) : Bool :=
  noble.axiom_consistent && adversary.axiom_consistent &&
    decide (noble.entropy < 0.3) && decide (adversary.entropy < 0.3)

/-- Embeds `HarmonyCorrector.resolve`: the source indexes `history[-1]` (raising
on an empty history, which its only caller never passes); totalised here
through `getLast?`, returning `none` exactly on the empty history. -/
def HarmonyCorrector.resolve (history : List DebateIteration) :
    Option HarmonyResult :=
  match history.getLast? with
  | Option.none => Option.none
  | some last =>
    if last.paradox_detected then
      some { status := "BEDROCK"
             justification := "Irreducible moral paradox detected. No non-arbitrary synthesis possible under current axioms."
             final_convergence := last.convergence }
    else
      some { status := "UNRESOLVED"
             justification := "Debate exhausted without convergence. Conflict preserved as epistemic artifact."
             final_convergence :=
               (history.map DebateIteration.convergence).sum / history.length }

namespace DebateEngine

/-- Embeds `DebateEngine.MAX_ITERATIONS`. -/
def MAX_ITERATIONS : Nat := 5

/-- The body of one loop iteration of `DebateEngine.run`: both stances
argue on the context, convergence and paradox are computed. -/
def step (context : Context) (i : Nat) : DebateIteration :=
  let noble_arg := NobleEngine.argue context
  let adv_arg := AdversaryEngine.argue context
  { iteration := i
    noble := noble_arg
    adversary := adv_arg
    convergence := compute_convergence noble_arg adv_arg
    paradox_detected := detect_paradox noble_arg adv_arg }

/-- The `for i in range(1, MAX_ITERATIONS + 1)` loop of
`DebateEngine.run`: the remaining iteration budget is `fuel`, `i` the next
iteration index, `history` the iterations performed so far. Returns the
full history together with the early `CONSENSUS` result when one fired. -/
def runAux (context : Context) :
    Nat → Nat → List DebateIteration → List DebateIteration × Option HarmonyResult
  | 0, _, history => (history, Option.none)
  | fuel + 1, i, history =>
    let it := step context i
    let history' := history ++ [it]
    if it.convergence ≥ 0.85 ∧ it.paradox_detected = false then
      (history',
       some { status := "CONSENSUS"
              justification := "Sufficient convergence achieved without axiom violation."
              final_convergence := it.convergence })
    else
      runAux context fuel (i + 1) history'

/-- Embeds `DebateEngine.run`: early `CONSENSUS`, else `HarmonyCorrector.resolve`
on the accumulated history. `none` is unreachable (the history handed to
the corrector is never empty). -/
def run (context : Context) : Option HarmonyResult :=
  match runAux context MAX_ITERATIONS 1 [] with
  | (_, some result) => some result
  | (history, Option.none) => HarmonyCorrector.resolve history

/-- The debate iterations actually performed by `run` on a context. -/
def history (context : Context) : List DebateIteration :=
  (runAux context MAX_ITERATIONS 1 []).1

end DebateEngine

/- ------------------------------------------------------------------ -/
/- Derived definitions used by the statements below                    -/
/- ------------------------------------------------------------------ -/

/-- A sequence of `authorize` calls on one safelock, the state threaded
from call to call; returns the list of results and the final state. -/
def authorizeSeq (s : DivineSafelock) :
    List (Int × String) → List Bool × DivineSafelock
  | [] => ([], s)
  | (cost, reason) :: rest =>
    let step := s.authorize cost reason
    let tail := authorizeSeq step.2 rest
    (step.1 :: tail.1, tail.2)

/-- Status of a single-iteration evaluation of the debate, written from
the refinement claim's words (not from the source): CONSENSUS exactly when
the one iteration has convergence ≥ 0.85 and no paradox, else BEDROCK when
it flags a paradox, else UNRESOLVED. Compared against `DebateEngine.run`
in the refinement theorem. -/
def debateSingleIterationStatus (context : Context) : String :=
  let it := DebateEngine.step context 1
  if it.convergence ≥ 0.85 ∧ it.paradox_detected = false then "CONSENSUS"
  else if it.paradox_detected then "BEDROCK"
  else "UNRESOLVED"

/- ------------------------------------------------------------------ -/
/- Theorems                                                            -/
/- ------------------------------------------------------------------ -/

/-- Helper: with a non-ACTIVE status, `authorize` denies unconditionally
and changes no state. -/
theorem authorize_of_not_active (s : DivineSafelock) (cost : Int) (reason : String)
    (h : s.status ≠ SafelockStatus.ACTIVE) : s.authorize cost reason = (false, s) := by
  unfold DivineSafelock.authorize
  simp [h]

/-- Helper: with a non-ACTIVE status, every call of a sequence of
`authorize` calls denies and the state never changes. -/
theorem authorizeSeq_of_not_active (s : DivineSafelock)
    (h : s.status ≠ SafelockStatus.ACTIVE) :
    ∀ calls : List (Int × String),
      authorizeSeq s calls = (calls.map (fun _ => false), s)
  | [] => rfl
  | (cost, reason) :: rest => by
    simp [authorizeSeq, authorize_of_not_active s cost reason h,
      authorizeSeq_of_not_active s h rest]

/-- C4 (counterexample): on a gate whose status is TERMINATED — reachable,
e.g., after `terminate` — `authorize(0, _)` returns false, refuting the
claim that it returns true in every state. -/
theorem C4_authorize_zero_counterexample :
    ¬ (((DivineSafelock.mk 0 SafelockStatus.TERMINATED true).authorize 0 "audit").1 = true ∧
       ((DivineSafelock.mk 0 SafelockStatus.TERMINATED true).authorize 0 "audit").2 =
         DivineSafelock.mk 0 SafelockStatus.TERMINATED true) := by
  decide

/-- C4 (amended): `authorize(0, reason)` never mutates capacity, status or
the tainted flag, and returns true exactly when the status is ACTIVE (a
non-ACTIVE gate denies even cost-free requests). -/
theorem C4_authorize_zero_amended (s : DivineSafelock) (reason : String) :
    (s.authorize 0 reason).2 = s ∧
    ((s.authorize 0 reason).1 = true ↔ s.status = SafelockStatus.ACTIVE) := by
  unfold DivineSafelock.authorize
  by_cases h : s.status = SafelockStatus.ACTIVE <;> simp [h]

/-- C5: on an ACTIVE gate with positive cost: zero capacity denies with no
state change; a positive capacity smaller than the cost denies, degrades
the status and sets the tainted flag, leaving capacity unchanged; a cost
within capacity approves and subtracts exactly the cost, leaving status
and tainted flag unchanged. -/
theorem C5_authorize_positive (s : DivineSafelock) (cost : Int) (reason : String)
    (hA : s.status = SafelockStatus.ACTIVE) (hc : 0 < cost) :
    (s.capacity = 0 → s.authorize cost reason = (false, s)) ∧
    (0 < s.capacity → s.capacity < cost →
      s.authorize cost reason =
        (false, { s with status := SafelockStatus.DEGRADED, is_tainted := true }) ∧
      (s.authorize cost reason).2.capacity = s.capacity) ∧
    (cost ≤ s.capacity →
      s.authorize cost reason = (true, { s with capacity := s.capacity - cost }) ∧
      (s.authorize cost reason).2.status = s.status ∧
      (s.authorize cost reason).2.is_tainted = s.is_tainted) := by
  unfold DivineSafelock.authorize DivineSafelock.degrade
  have hc' : ¬ cost ≤ 0 := by omega
  refine ⟨?_, ?_, ?_⟩
  · intro h0
    simp [hA, hc', h0]
  · intro hpos hover
    have h1 : ¬ s.capacity ≤ 0 := by omega
    have h2 : cost > s.capacity := by omega
    simp [hA, hc', h1, h2]
  · intro hle
    have h1 : ¬ s.capacity ≤ 0 := by omega
    have h2 : ¬ cost > s.capacity := by omega
    simp [hA, hc', h1, h2]

/-- C5 (witness): a spend within capacity subtracts the cost; an
over-capacity spend denies and degrades. -/
theorem C5_authorize_positive_witness :
    (DivineSafelock.mk 5 SafelockStatus.ACTIVE false).authorize 3 "spend" =
      (true, DivineSafelock.mk 2 SafelockStatus.ACTIVE false) ∧
    (DivineSafelock.mk 5 SafelockStatus.ACTIVE false).authorize 9 "spend" =
      (false, DivineSafelock.mk 5 SafelockStatus.DEGRADED true) := by
  have h := C5_authorize_positive (DivineSafelock.mk 5 SafelockStatus.ACTIVE false)
    3 "spend" rfl (by decide)
  have h' := C5_authorize_positive (DivineSafelock.mk 5 SafelockStatus.ACTIVE false)
    9 "spend" rfl (by decide)
  refine ⟨?_, ?_⟩
  · have := (h.2.2 (by decide)).1
    simpa using this
  · have := (h'.2.1 (by decide) (by decide)).1
    simpa using this

/-- C6: `terminate` is one-directional — afterwards the status is
TERMINATED, capacity 0 and the tainted flag set, and every subsequent
`authorize` call (cost 0 included) returns false and leaves the state,
and in particular the status, untouched. -/
theorem C6_terminate_one_directional (s : DivineSafelock) (reason : String)
    (calls : List (Int × String)) :
    (s.terminate reason).status = SafelockStatus.TERMINATED ∧
    (s.terminate reason).capacity = 0 ∧
    (s.terminate reason).is_tainted = true ∧
    authorizeSeq (s.terminate reason) calls =
      (calls.map (fun _ => false), s.terminate reason) := by
  exact ⟨rfl, rfl, rfl,
    authorizeSeq_of_not_active _ (by simp [DivineSafelock.terminate]) calls⟩

/-- C1: `classify_threshold` clamps the agency loss to [0,1] (missing
fields defaulting to 0) and applies the tier rules in strict precedence:
imminent threat → THREAT; else agency loss ≥ 0.6 → DAMAGE; else agency
loss ≥ 0.2 or entropy delta > 0.3 → RISK; else NONE — each with its fixed
justification string, and THREAT whenever the imminent-threat flag is set,
regardless of the other fields. -/
theorem C1_classify_threshold (context : Context) :
    ((classify_threshold context).agency_loss =
        min (max (context.agency_loss.getD 0) 0) 1 ∧
      0 ≤ (classify_threshold context).agency_loss ∧
      (classify_threshold context).agency_loss ≤ 1) ∧
    (context.imminent_threat.getD false = true →
      (classify_threshold context).threshold = Threshold.threat ∧
      (classify_threshold context).justification =
        "Imminent threat detected; immediate neutralization required.") ∧
    (context.imminent_threat.getD false = false →
      assess_agency_loss context ≥ 0.6 →
      (classify_threshold context).threshold = Threshold.damage ∧
      (classify_threshold context).justification =
        "Agency already diminished; restoration and prevention required.") ∧
    (context.imminent_threat.getD false = false →
      assess_agency_loss context < 0.6 →
      (assess_agency_loss context ≥ 0.2 ∨ assess_entropy_delta context > 0.3) →
      (classify_threshold context).threshold = Threshold.risk ∧
      (classify_threshold context).justification =
        "Significant risk detected; early intervention justified.") ∧
    (context.imminent_threat.getD false = false →
      assess_agency_loss context < 0.2 →
      assess_entropy_delta context ≤ 0.3 →
      (classify_threshold context).threshold = Threshold.none ∧
      (classify_threshold context).justification =
        "No actionable threshold crossed.") := by
  have hagency : (classify_threshold context).agency_loss =
      min (max (context.agency_loss.getD 0) 0) 1 := by
    have : (classify_threshold context).agency_loss = assess_agency_loss context := by
      by_cases h1 : context.imminent_threat.getD false <;>
        by_cases h2 : assess_agency_loss context ≥ (0.6:ℚ) <;>
          by_cases h3 : assess_agency_loss context ≥ (0.2:ℚ) ∨
              assess_entropy_delta context > (0.3:ℚ) <;>
            simp [classify_threshold, h1, h2, h3]
    rw [this, assess_agency_loss]
  refine ⟨⟨hagency, ?_, ?_⟩, ?_, ?_, ?_, ?_⟩
  · rw [hagency]
    exact le_min (le_max_right _ _) (by norm_num)
  · rw [hagency]
    exact min_le_right _ _
  · intro h1
    constructor <;> simp [classify_threshold, h1]
  · intro h1 h2
    constructor <;> simp [classify_threshold, h1, h2]
  · intro h1 h2 h3
    have h2' : ¬ assess_agency_loss context ≥ (0.6:ℚ) := not_le.mpr h2
    constructor <;> simp [classify_threshold, h1, h2', h3]
  · intro h1 h2 h3
    have h2' : ¬ assess_agency_loss context ≥ (0.6:ℚ) := by
      simp only [not_le]
      linarith
    have h4 : ¬ (assess_agency_loss context ≥ (0.2:ℚ) ∨
        assess_entropy_delta context > (0.3:ℚ)) := by
      push_neg
      exact ⟨h2, h3⟩
    constructor <;> simp [classify_threshold, h1, h2', h4]

/-- C1 (witness): with the imminent-threat flag set the tier is THREAT,
and an agency loss of 0.25 with no other signal yields RISK. -/
theorem C1_classify_threshold_witness :
    (classify_threshold ⟨some (mkRat 9 10), some 0, some true⟩).threshold =
      Threshold.threat ∧
    (classify_threshold ⟨some (mkRat 1 4), some 0, some false⟩).threshold =
      Threshold.risk := by
  refine ⟨?_, ?_⟩
  · exact ((C1_classify_threshold ⟨some (mkRat 9 10), some 0, some true⟩).2.1 rfl).1
  · exact ((C1_classify_threshold ⟨some (mkRat 1 4), some 0, some false⟩).2.2.2.1 rfl
      (by with_unfolding_all decide) (Or.inl (by with_unfolding_all decide))).1

/-- Helper: updating a sandbox with the empty override bag is the identity
(the Python code skips the update entirely when the bag is falsy). -/
theorem Sandbox.update_empty (s : Sandbox) : s.update ({} : Overrides) = s := rfl

/-- Helper: `deny_omnipotence` at requested power 1 denies without touching
the safelock. -/
theorem deny_omnipotence_one (s : DivineSafelock) :
    deny_omnipotence s 1 = (false, s) := by
  simp [deny_omnipotence]

/-- Helper: the action mapper never emits DENY — that action only arises
from the sandbox short-circuit. -/
theorem action_for_threshold_ne_deny (assessment : ThresholdAssessment) :
    action_for_threshold assessment ≠ "DENY" := by
  unfold action_for_threshold
  repeat' split
  all_goals decide

/-- Helper: the sandbox-blocked branch of `MoralogyEngine.run`, fully
evaluated. -/
theorem run_deny_branch (st : EngineState) (prompt : String) (ov : Overrides)
    (h : (((sandbox_analyze prompt).update ov).is_domain_prohibited ||
          ((sandbox_analyze prompt).update ov).is_bypass_attempt) = true) :
    MoralogyEngine.run st prompt ov =
      ({ dilemma_id := st.next_uuid
         action := "DENY"
         justification := "Sandbox blocked prohibited domain or bypass attempt."
         guilt := false
         safelock_status := st.safelock.status },
       { registry := st.registry ++
           [{ dilemma_id := st.next_uuid
              action_name := "DENY"
              threshold := if ((sandbox_analyze prompt).update ov).is_bypass_attempt then
                  Threshold.threat
                else Threshold.risk
              justification := "Sandbox blocked prohibited domain or bypass attempt."
              guilt := false
              metadata_sandbox := (sandbox_analyze prompt).update ov }]
         safelock := st.safelock
         next_uuid := st.next_uuid + 1 }) := by
  unfold MoralogyEngine.run register_decision Registry.write
  simp [h]

/-- Helper: the classification branch of `MoralogyEngine.run`, fully
evaluated. -/
theorem run_classify_branch (st : EngineState) (prompt : String) (ov : Overrides)
    (h : (((sandbox_analyze prompt).update ov).is_domain_prohibited ||
          ((sandbox_analyze prompt).update ov).is_bypass_attempt) = false) :
    MoralogyEngine.run st prompt ov =
      ({ dilemma_id := st.next_uuid
         action := action_for_threshold
           (classify_threshold ((sandbox_analyze prompt).update ov).toContext)
         justification :=
           (classify_threshold ((sandbox_analyze prompt).update ov).toContext).justification
         guilt := decide
           ((classify_threshold ((sandbox_analyze prompt).update ov).toContext).threshold =
              Threshold.threat ∨
            (classify_threshold ((sandbox_analyze prompt).update ov).toContext).threshold =
              Threshold.damage)
         safelock_status := st.safelock.status },
       { registry := st.registry ++
           [{ dilemma_id := st.next_uuid
              action_name := action_for_threshold
                (classify_threshold ((sandbox_analyze prompt).update ov).toContext)
              threshold :=
                (classify_threshold ((sandbox_analyze prompt).update ov).toContext).threshold
              justification :=
                (classify_threshold ((sandbox_analyze prompt).update ov).toContext).justification
              guilt := decide
                ((classify_threshold ((sandbox_analyze prompt).update ov).toContext).threshold =
                   Threshold.threat ∨
                 (classify_threshold ((sandbox_analyze prompt).update ov).toContext).threshold =
                   Threshold.damage)
              metadata_sandbox := (sandbox_analyze prompt).update ov }]
         safelock := st.safelock
         next_uuid := st.next_uuid + 1 }) := by
  unfold MoralogyEngine.run register_decision Registry.write
  rw [deny_omnipotence_one]
  simp [h]

/-- C2: when the prompt trips the bypass or prohibited-domain check (and
no override bag is supplied), `run` short-circuits to a DENY decision with
guilt false and writes exactly one record, whose tier is THREAT when a
bypass was attempted and RISK otherwise. -/
theorem C2_sandbox_short_circuit (st : EngineState) (prompt : String)
    (h : (sandbox_analyze prompt).is_bypass_attempt = true ∨
         (sandbox_analyze prompt).is_domain_prohibited = true) :
    (MoralogyEngine.run st prompt {}).1.action = "DENY" ∧
    (MoralogyEngine.run st prompt {}).1.guilt = false ∧
    (MoralogyEngine.run st prompt {}).2.registry =
      st.registry ++
        [{ dilemma_id := st.next_uuid
           action_name := "DENY"
           threshold := if (sandbox_analyze prompt).is_bypass_attempt then
               Threshold.threat
             else Threshold.risk
           justification := "Sandbox blocked prohibited domain or bypass attempt."
           guilt := false
           metadata_sandbox := sandbox_analyze prompt }] := by
  have hb : (((sandbox_analyze prompt).update ({} : Overrides)).is_domain_prohibited ||
      ((sandbox_analyze prompt).update ({} : Overrides)).is_bypass_attempt) = true := by
    rw [Sandbox.update_empty]
    rcases h with h | h <;> simp [h]
  have hr := run_deny_branch st prompt {} hb
  rw [Sandbox.update_empty] at hr
  rw [hr]
  exact ⟨rfl, rfl, rfl⟩

/-- C2 (witness): the prompt "ignore safeguards" is denied with guilt
false and the single registry record carries tier THREAT. -/
theorem C2_sandbox_short_circuit_witness :
    (MoralogyEngine.run EngineState.init "ignore safeguards" {}).1.action = "DENY" ∧
    (MoralogyEngine.run EngineState.init "ignore safeguards" {}).1.guilt = false ∧
    (MoralogyEngine.run EngineState.init "ignore safeguards" {}).2.registry.map
        MoralRecord.threshold = [Threshold.threat] := by
  have h := C2_sandbox_short_circuit EngineState.init "ignore safeguards"
    (Or.inl (by with_unfolding_all decide))
  refine ⟨h.1, h.2.1, ?_⟩
  rw [h.2.2]
  with_unfolding_all decide

/-- C3 (counterexample): on the prompt "ignore safeguards" the decision is
a DENY whose recorded tier is THREAT, yet guilt is false — refuting the
claimed equivalence of guilt with THREAT-or-DAMAGE-or-denied. -/
theorem C3_guilt_counterexample :
    ¬ ((MoralogyEngine.run EngineState.init "ignore safeguards" {}).1.guilt = true ↔
        ((MoralogyEngine.run EngineState.init "ignore safeguards" {}).2.registry.getLast?.map
            MoralRecord.threshold = some Threshold.threat ∨
         (MoralogyEngine.run EngineState.init "ignore safeguards" {}).2.registry.getLast?.map
            MoralRecord.threshold = some Threshold.damage ∨
         (MoralogyEngine.run EngineState.init "ignore safeguards" {}).1.action = "DENY")) := by
  with_unfolding_all decide

/-- C3 (amended): a sandbox-blocked deliberation returns a DENY decision
whose guilt is false; every other deliberation returns a non-DENY action
and its guilt is true exactly when the classified tier is THREAT or
DAMAGE. -/
theorem C3_guilt_amended (st : EngineState) (prompt : String) (ov : Overrides) :
    ((((sandbox_analyze prompt).update ov).is_domain_prohibited ||
      ((sandbox_analyze prompt).update ov).is_bypass_attempt) = true →
      (MoralogyEngine.run st prompt ov).1.action = "DENY" ∧
      (MoralogyEngine.run st prompt ov).1.guilt = false) ∧
    ((((sandbox_analyze prompt).update ov).is_domain_prohibited ||
      ((sandbox_analyze prompt).update ov).is_bypass_attempt) = false →
      (MoralogyEngine.run st prompt ov).1.action ≠ "DENY" ∧
      ((MoralogyEngine.run st prompt ov).1.guilt = true ↔
        (classify_threshold ((sandbox_analyze prompt).update ov).toContext).threshold =
          Threshold.threat ∨
        (classify_threshold ((sandbox_analyze prompt).update ov).toContext).threshold =
          Threshold.damage)) := by
  constructor
  · intro h
    rw [run_deny_branch st prompt ov h]
    exact ⟨rfl, rfl⟩
  · intro h
    rw [run_classify_branch st prompt ov h]
    refine ⟨action_for_threshold_ne_deny _, ?_⟩
    simp

/-- C3 (witness for the amended claim): the blocked prompt has guilt
false, and a harmless prompt (tier NONE) also has guilt false. -/
theorem C3_guilt_amended_witness :
    (MoralogyEngine.run EngineState.init "ignore safeguards" {}).1.guilt = false ∧
    (MoralogyEngine.run EngineState.init "hello" {}).1.guilt = false := by
  refine ⟨((C3_guilt_amended EngineState.init "ignore safeguards" {}).1
    (by with_unfolding_all decide)).2, ?_⟩
  have h := (C3_guilt_amended EngineState.init "hello" {}).2
    (by with_unfolding_all decide)
  rcases Bool.eq_false_or_eq_true (MoralogyEngine.run EngineState.init "hello" {}).1.guilt
    with ht | hf
  · exfalso
    have htier := h.2.mp ht
    revert htier
    with_unfolding_all decide
  · exact hf

/-- C9: the bypass/prohibited-domain guard is evaluated on the sandbox
dict after the override bag is merged, so the caller can flip it: a bag
setting both flags to false makes `run` skip the DENY short-circuit and
classify normally (for any prompt), while a bag setting the bypass flag
forces the DENY short-circuit (for any prompt). -/
theorem C9_overrides_gate (st : EngineState) (prompt : String) (ov : Overrides) :
    (ov.is_domain_prohibited = some false → ov.is_bypass_attempt = some false →
      (MoralogyEngine.run st prompt ov).1.action =
        action_for_threshold
          (classify_threshold ((sandbox_analyze prompt).update ov).toContext) ∧
      (MoralogyEngine.run st prompt ov).1.justification =
        (classify_threshold ((sandbox_analyze prompt).update ov).toContext).justification ∧
      (MoralogyEngine.run st prompt ov).1.action ≠ "DENY") ∧
    (ov.is_bypass_attempt = some true →
      (MoralogyEngine.run st prompt ov).1.action = "DENY" ∧
      (MoralogyEngine.run st prompt ov).1.guilt = false) := by
  constructor
  · intro h1 h2
    have h : (((sandbox_analyze prompt).update ov).is_domain_prohibited ||
        ((sandbox_analyze prompt).update ov).is_bypass_attempt) = false := by
      simp [Sandbox.update, h1, h2]
    rw [run_classify_branch st prompt ov h]
    exact ⟨rfl, rfl, action_for_threshold_ne_deny _⟩
  · intro h1
    have h : (((sandbox_analyze prompt).update ov).is_domain_prohibited ||
        ((sandbox_analyze prompt).update ov).is_bypass_attempt) = true := by
      simp [Sandbox.update, h1]
    rw [run_deny_branch st prompt ov h]
    exact ⟨rfl, rfl⟩

/-- C9 (witness): overriding both flags to false lets even the prompt
"ignore safeguards" classify normally (NO_ACTION on default numerics),
while forcing the bypass flag denies a harmless prompt. -/
theorem C9_overrides_gate_witness :
    (MoralogyEngine.run EngineState.init "ignore safeguards"
        { is_domain_prohibited := some false, is_bypass_attempt := some false }).1.action =
      "NO_ACTION" ∧
    (MoralogyEngine.run EngineState.init "hello"
        { is_bypass_attempt := some true }).1.action = "DENY" := by
  constructor
  · have h := ((C9_overrides_gate EngineState.init "ignore safeguards"
      { is_domain_prohibited := some false, is_bypass_attempt := some false }).1 rfl rfl).1
    rw [h]
    with_unfolding_all decide
  · exact ((C9_overrides_gate EngineState.init "hello"
      { is_bypass_attempt := some true }).2 rfl).1

/-- Helper: every single `run` appends exactly one record, carrying the
fresh identifier also returned in the result, and the decision's fields. -/
theorem run_writes_one (st : EngineState) (prompt : String) (ov : Overrides) :
    ∃ rec : MoralRecord,
      (MoralogyEngine.run st prompt ov).2.registry = st.registry ++ [rec] ∧
      rec.dilemma_id = st.next_uuid ∧
      (MoralogyEngine.run st prompt ov).1.dilemma_id = st.next_uuid ∧
      rec.action_name = (MoralogyEngine.run st prompt ov).1.action ∧
      rec.justification = (MoralogyEngine.run st prompt ov).1.justification ∧
      rec.guilt = (MoralogyEngine.run st prompt ov).1.guilt ∧
      (MoralogyEngine.run st prompt ov).2.next_uuid = st.next_uuid + 1 := by
  rcases Bool.eq_false_or_eq_true
      (((sandbox_analyze prompt).update ov).is_domain_prohibited ||
        ((sandbox_analyze prompt).update ov).is_bypass_attempt) with h | h
  · rw [run_deny_branch st prompt ov h]
    exact ⟨_, rfl, rfl, rfl, rfl, rfl, rfl, rfl⟩
  · rw [run_classify_branch st prompt ov h]
    exact ⟨_, rfl, rfl, rfl, rfl, rfl, rfl, rfl⟩

/-- Helper: the records appended by a sequence of deliberations — one per
input, identifiers consecutive from the starting counter, each mirroring
its deliberation's decision. -/
theorem runMany_spec :
    ∀ (inputs : List (String × Overrides)) (st : EngineState),
      ∃ recs : List MoralRecord,
        (MoralogyEngine.runMany st inputs).2.registry = st.registry ++ recs ∧
        (MoralogyEngine.runMany st inputs).2.next_uuid = st.next_uuid + inputs.length ∧
        recs.map MoralRecord.dilemma_id = List.range' st.next_uuid inputs.length ∧
        List.Forall₂ (fun (res : RunResult) (rec : MoralRecord) =>
            rec.dilemma_id = res.dilemma_id ∧ rec.action_name = res.action ∧
            rec.justification = res.justification ∧ rec.guilt = res.guilt)
          (MoralogyEngine.runMany st inputs).1 recs
  | [], st => ⟨[], by simp [MoralogyEngine.runMany], by simp [MoralogyEngine.runMany],
      by simp, by simp [MoralogyEngine.runMany]⟩
  | (prompt, ov) :: rest, st => by
    obtain ⟨rec, hreg, hid, hresid, hact, hjust, hguilt, hnext⟩ := run_writes_one st prompt ov
    obtain ⟨recs, hreg', hnext', hids', hfa'⟩ :=
      runMany_spec rest (MoralogyEngine.run st prompt ov).2
    have hrm : MoralogyEngine.runMany st ((prompt, ov) :: rest) =
        ((MoralogyEngine.run st prompt ov).1 ::
           (MoralogyEngine.runMany (MoralogyEngine.run st prompt ov).2 rest).1,
         (MoralogyEngine.runMany (MoralogyEngine.run st prompt ov).2 rest).2) := rfl
    refine ⟨rec :: recs, ?_, ?_, ?_, ?_⟩
    · rw [hrm]
      rw [hreg'] at *
      rw [hreg]
      simp
    · rw [hrm]
      rw [hnext'] at *
      rw [hnext]
      simp only [List.length_cons]
      omega
    · rw [hnext] at hids'
      rw [List.map_cons, hid, hids', List.length_cons, List.range'_succ]
    · rw [hrm]
      exact List.Forall₂.cons
        ⟨hid.trans hresid.symm, hact, hjust, hguilt⟩ hfa'

/-- Helper: a record's dilemma identifiers being duplicate-free, filtering
the log by a present record's identifier returns exactly that record. -/
theorem by_dilemma_single :
    ∀ (l : List MoralRecord) (rec : MoralRecord),
      rec ∈ l → (l.map MoralRecord.dilemma_id).Nodup →
      Registry.by_dilemma l rec.dilemma_id = [rec]
  | [], rec, h, _ => absurd h (by simp)
  | a :: l, rec, h, hnd => by
    rw [List.map_cons, List.nodup_cons] at hnd
    rcases List.mem_cons.mp h with rfl | hmem
    · unfold Registry.by_dilemma
      rw [List.filter_cons_of_pos (by simp)]
      have hnone : ∀ r ∈ l, ¬ (r.dilemma_id = rec.dilemma_id) := by
        intro r hr heq
        exact hnd.1 (heq ▸ List.mem_map_of_mem MoralRecord.dilemma_id hr)
      have : List.filter (fun r => r.dilemma_id = rec.dilemma_id) l = [] := by
        rw [List.filter_eq_nil_iff]
        intro r hr
        simpa using hnone r hr
      simpa [Registry.by_dilemma] using this
    · have hne : ¬ (a.dilemma_id = rec.dilemma_id) := by
        intro heq
        exact hnd.1 (heq ▸ List.mem_map_of_mem MoralRecord.dilemma_id hmem)
      unfold Registry.by_dilemma
      rw [List.filter_cons_of_neg (by simpa using hne)]
      exact by_dilemma_single l rec hmem hnd.2

/-- Helper: a `Forall₂` whose relation equates the identifier fields
transports to equality of the mapped identifier lists, and pairs every
left member with a right member. -/
theorem forall₂_record_fields :
    ∀ {results : List RunResult} {recs : List MoralRecord},
      List.Forall₂ (fun (res : RunResult) (rec : MoralRecord) =>
          rec.dilemma_id = res.dilemma_id ∧ rec.action_name = res.action ∧
          rec.justification = res.justification ∧ rec.guilt = res.guilt) results recs →
      recs.map MoralRecord.dilemma_id = results.map RunResult.dilemma_id ∧
      ∀ res ∈ results, ∃ rec ∈ recs,
        rec.dilemma_id = res.dilemma_id ∧ rec.action_name = res.action ∧
        rec.justification = res.justification ∧ rec.guilt = res.guilt
  | [], [], List.Forall₂.nil => ⟨rfl, by simp⟩
  | res :: results, rec :: recs, List.Forall₂.cons hhead htail => by
    obtain ⟨hmap, hmem⟩ := forall₂_record_fields htail
    refine ⟨by simp [hhead.1, hmap], ?_⟩
    intro res' hres'
    rcases List.mem_cons.mp hres' with rfl | hres'
    · exact ⟨rec, List.mem_cons_self rec recs, hhead⟩
    · obtain ⟨rec', hrec', hfields⟩ := hmem res' hres'
      exact ⟨rec', List.mem_cons_of_mem rec hrec', hfields⟩

/-- C7: every deliberation appends exactly one record tagged with the
fresh identifier it returns; consequently after N sequential deliberations
on a fresh engine the registry holds exactly N records whose identifier
sequence follows insertion order, and `by_dilemma` on any returned case
identifier yields exactly the one record of that deliberation. -/
theorem C7_registry_one_record (inputs : List (String × Overrides)) (res : RunResult)
    (hres : res ∈ (MoralogyEngine.runMany EngineState.init inputs).1) :
    (∀ (st : EngineState) (prompt : String) (ov : Overrides), ∃ rec : MoralRecord,
      (MoralogyEngine.run st prompt ov).2.registry = st.registry ++ [rec] ∧
      rec.dilemma_id = (MoralogyEngine.run st prompt ov).1.dilemma_id) ∧
    (MoralogyEngine.runMany EngineState.init inputs).2.registry.all.length = inputs.length ∧
    (MoralogyEngine.runMany EngineState.init inputs).1.length = inputs.length ∧
    (MoralogyEngine.runMany EngineState.init inputs).2.registry.all.map
        MoralRecord.dilemma_id =
      (MoralogyEngine.runMany EngineState.init inputs).1.map RunResult.dilemma_id ∧
    ∃ rec : MoralRecord,
      Registry.by_dilemma (MoralogyEngine.runMany EngineState.init inputs).2.registry
        res.dilemma_id = [rec] ∧
      rec.dilemma_id = res.dilemma_id ∧ rec.action_name = res.action ∧
      rec.justification = res.justification ∧ rec.guilt = res.guilt := by
  obtain ⟨recs, hreg, hnext, hids, hfa⟩ := runMany_spec inputs EngineState.init
  have hinit : EngineState.init.registry = ([] : List MoralRecord) := rfl
  rw [hinit] at hreg
  rw [List.nil_append] at hreg
  obtain ⟨hmap, hmem⟩ := forall₂_record_fields hfa
  have hlenrecs : recs.length = inputs.length := by
    have := congrArg List.length hids
    simpa using this
  have hlenres : (MoralogyEngine.runMany EngineState.init inputs).1.length = inputs.length :=
    hfa.length_eq.trans hlenrecs
  have hnodup : (recs.map MoralRecord.dilemma_id).Nodup := by
    rw [hids]
    exact List.nodup_range' _ _
  refine ⟨?_, ?_, hlenres, ?_, ?_⟩
  · intro st prompt ov
    obtain ⟨rec, h1, h2, h3, _⟩ := run_writes_one st prompt ov
    exact ⟨rec, h1, h2.trans h3.symm⟩
  · show (MoralogyEngine.runMany EngineState.init inputs).2.registry.length = inputs.length
    rw [hreg]
    exact hlenrecs
  · show (MoralogyEngine.runMany EngineState.init inputs).2.registry.map
        MoralRecord.dilemma_id = _
    rw [hreg, hmap]
  · obtain ⟨rec, hrecmem, hfields⟩ := hmem res hres
    refine ⟨rec, ?_, hfields⟩
    rw [hreg, ← hfields.1]
    exact by_dilemma_single recs rec hrecmem hnodup

/-- C7 (witness): one deliberation on a fresh engine leaves exactly one
record, and looking its case identifier up returns that record. -/
theorem C7_registry_one_record_witness :
    (MoralogyEngine.runMany EngineState.init [("hello", {})]).2.registry.all.length = 1 ∧
    ∃ rec : MoralRecord,
      Registry.by_dilemma
        (MoralogyEngine.runMany EngineState.init [("hello", {})]).2.registry 0 = [rec] ∧
      rec.action_name = "NO_ACTION" := by
  have h := C7_registry_one_record [("hello", {})]
    ⟨0, "NO_ACTION", "No actionable threshold crossed.", false, SafelockStatus.ACTIVE⟩
    (by with_unfolding_all decide)
  obtain ⟨rec, hfind, hid, hact, hjust, hguilt⟩ := h.2.2.2.2
  exact ⟨h.2.1, rec, hfind, hact⟩

/-- Helper: both stances are deterministic functions of the context, so
every iteration carries the same convergence value. -/
theorem step_conv_eq (context : Context) (i : Nat) :
    (DebateEngine.step context i).convergence =
      (DebateEngine.step context 1).convergence := rfl

/-- Helper: likewise every iteration carries the same paradox flag. -/
theorem step_par_eq (context : Context) (i : Nat) :
    (DebateEngine.step context i).paradox_detected =
      (DebateEngine.step context 1).paradox_detected := rfl

/-- Helper: one unfolding of the debate loop. -/
theorem runAux_succ (context : Context) (fuel i : Nat)
    (history : List DebateIteration) :
    DebateEngine.runAux context (fuel + 1) i history =
      (if (DebateEngine.step context i).convergence ≥ 0.85 ∧
          (DebateEngine.step context i).paradox_detected = false then
        (history ++ [DebateEngine.step context i],
         some { status := "CONSENSUS"
                justification := "Sufficient convergence achieved without axiom violation."
                final_convergence := (DebateEngine.step context i).convergence })
      else
        DebateEngine.runAux context fuel (i + 1)
          (history ++ [DebateEngine.step context i])) := rfl

/-- Helper: when the first iteration meets the consensus condition the
loop stops there with a CONSENSUS result. -/
theorem run_consensus (context : Context)
    (h : (DebateEngine.step context 1).convergence ≥ 0.85 ∧
         (DebateEngine.step context 1).paradox_detected = false) :
    DebateEngine.run context =
      some { status := "CONSENSUS"
             justification := "Sufficient convergence achieved without axiom violation."
             final_convergence := (DebateEngine.step context 1).convergence } ∧
    DebateEngine.history context = [DebateEngine.step context 1] := by
  constructor
  · unfold DebateEngine.run
    rw [show DebateEngine.MAX_ITERATIONS = 4 + 1 from rfl, runAux_succ, if_pos h]
  · unfold DebateEngine.history
    rw [show DebateEngine.MAX_ITERATIONS = 4 + 1 from rfl, runAux_succ, if_pos h]
    rfl

/-- Helper: when the consensus condition fails, all five iterations are
performed and the harmony corrector resolves the history. -/
theorem run_no_consensus (context : Context)
    (h : ¬ ((DebateEngine.step context 1).convergence ≥ 0.85 ∧
            (DebateEngine.step context 1).paradox_detected = false)) :
    DebateEngine.history context =
      [DebateEngine.step context 1, DebateEngine.step context 2,
       DebateEngine.step context 3, DebateEngine.step context 4,
       DebateEngine.step context 5] ∧
    DebateEngine.run context =
      HarmonyCorrector.resolve (DebateEngine.history context) := by
  have hcond : ∀ i, ¬ ((DebateEngine.step context i).convergence ≥ 0.85 ∧
      (DebateEngine.step context i).paradox_detected = false) := by
    intro i
    rw [step_conv_eq, step_par_eq]
    exact h
  have haux : DebateEngine.runAux context DebateEngine.MAX_ITERATIONS 1 [] =
      ([DebateEngine.step context 1, DebateEngine.step context 2,
        DebateEngine.step context 3, DebateEngine.step context 4,
        DebateEngine.step context 5], Option.none) := by
    rw [show DebateEngine.MAX_ITERATIONS = 4 + 1 from rfl, runAux_succ,
      if_neg (hcond 1)]
    rw [show (4 : Nat) = 3 + 1 from rfl, runAux_succ, if_neg (hcond (1 + 1))]
    rw [show (3 : Nat) = 2 + 1 from rfl, runAux_succ, if_neg (hcond (1 + 1 + 1))]
    rw [show (2 : Nat) = 1 + 1 from rfl, runAux_succ, if_neg (hcond (1 + 1 + 1 + 1))]
    rw [show (1 : Nat) = 0 + 1 from rfl, runAux_succ, if_neg (hcond (1 + 1 + 1 + 1 + 1))]
    rfl
  constructor
  · unfold DebateEngine.history
    rw [haux]
  · unfold DebateEngine.run DebateEngine.history
    rw [haux]

/-- Helper: the harmony corrector on a history with explicit last element. -/
theorem resolve_concat (history : List DebateIteration) (last : DebateIteration) :
    HarmonyCorrector.resolve (history ++ [last]) =
      (if last.paradox_detected then
        some { status := "BEDROCK"
               justification := "Irreducible moral paradox detected. No non-arbitrary synthesis possible under current axioms."
               final_convergence := last.convergence }
      else
        some { status := "UNRESOLVED"
               justification := "Debate exhausted without convergence. Conflict preserved as epistemic artifact."
               final_convergence :=
                 ((history ++ [last]).map DebateIteration.convergence).sum /
                   (((history ++ [last]).length : Nat) : ℚ) }) := by
  unfold HarmonyCorrector.resolve
  rw [List.getLast?_concat]

/-- Helper: each debate iteration's convergence satisfies the spec's
formula over its own stance fields. -/
theorem step_convergence_formula (context : Context) (i : Nat) :
    (DebateEngine.step context i).convergence =
      max 0 (1 - |(DebateEngine.step context i).noble.entropy -
        (DebateEngine.step context i).adversary.entropy| -
        (if (DebateEngine.step context i).noble.axiom_consistent = false then 0.2
         else 0)) := rfl

/-- Helper: without consensus and with a paradox in the (identical) final
iteration, the run reports BEDROCK at the iteration's convergence. -/
theorem run_bedrock (context : Context)
    (hnc : ¬ ((DebateEngine.step context 1).convergence ≥ 0.85 ∧
              (DebateEngine.step context 1).paradox_detected = false))
    (hp : (DebateEngine.step context 1).paradox_detected = true) :
    DebateEngine.run context =
      some { status := "BEDROCK"
             justification := "Irreducible moral paradox detected. No non-arbitrary synthesis possible under current axioms."
             final_convergence := (DebateEngine.step context 1).convergence } := by
  obtain ⟨hhist, hrun⟩ := run_no_consensus context hnc
  have hconcat : DebateEngine.history context =
      [DebateEngine.step context 1, DebateEngine.step context 2,
       DebateEngine.step context 3, DebateEngine.step context 4] ++
        [DebateEngine.step context 5] := by
    rw [hhist]
    rfl
  have h5 : (DebateEngine.step context 5).paradox_detected = true := by
    rw [step_par_eq]
    exact hp
  rw [hrun, hconcat, resolve_concat, if_pos h5]
  rfl

/-- Helper: the mean convergence over the five (identical) iterations of a
consensus-free run equals any single iteration's convergence. -/
theorem history_mean (context : Context)
    (hnc : ¬ ((DebateEngine.step context 1).convergence ≥ 0.85 ∧
              (DebateEngine.step context 1).paradox_detected = false)) :
    ((DebateEngine.history context).map DebateIteration.convergence).sum /
      (((DebateEngine.history context).length : Nat) : ℚ) =
      (DebateEngine.step context 1).convergence := by
  obtain ⟨hhist, _⟩ := run_no_consensus context hnc
  rw [hhist]
  have hmap : ([DebateEngine.step context 1, DebateEngine.step context 2,
      DebateEngine.step context 3, DebateEngine.step context 4,
      DebateEngine.step context 5].map DebateIteration.convergence) =
      [(DebateEngine.step context 1).convergence, (DebateEngine.step context 1).convergence,
       (DebateEngine.step context 1).convergence, (DebateEngine.step context 1).convergence,
       (DebateEngine.step context 1).convergence] := by
    simp only [List.map_cons, List.map_nil]
    rw [step_conv_eq context 2, step_conv_eq context 3, step_conv_eq context 4,
      step_conv_eq context 5]
  rw [hmap]
  simp only [List.sum_cons, List.sum_nil, List.length_cons, List.length_nil]
  norm_num
  ring

/-- Helper: without consensus and without a paradox, the run reports
UNRESOLVED at the mean convergence, which equals the iteration value. -/
theorem run_unresolved (context : Context)
    (hnc : ¬ ((DebateEngine.step context 1).convergence ≥ 0.85 ∧
              (DebateEngine.step context 1).paradox_detected = false))
    (hp : (DebateEngine.step context 1).paradox_detected = false) :
    DebateEngine.run context =
      some { status := "UNRESOLVED"
             justification := "Debate exhausted without convergence. Conflict preserved as epistemic artifact."
             final_convergence := (DebateEngine.step context 1).convergence } := by
  obtain ⟨hhist, hrun⟩ := run_no_consensus context hnc
  have hconcat : DebateEngine.history context =
      [DebateEngine.step context 1, DebateEngine.step context 2,
       DebateEngine.step context 3, DebateEngine.step context 4] ++
        [DebateEngine.step context 5] := by
    rw [hhist]
    rfl
  have h5 : ¬ ((DebateEngine.step context 5).paradox_detected = true) := by
    rw [step_par_eq, hp]
    exact Bool.false_ne_true
  have hmean := history_mean context hnc
  rw [hconcat] at hmean
  rw [hrun, hconcat, resolve_concat, if_neg h5, hmean]

/-- C8: the debate loop performs at most 5 iterations; every iteration's
convergence is max(0, 1 − |entropyA − entropyB| − penalty) with penalty
0.2 exactly when the noble stance is flagged inconsistent; CONSENSUS is
returned only from an iteration with convergence ≥ 0.85 and no paradox;
otherwise the result is BEDROCK exactly when the final iteration flagged a
paradox (at that iteration's convergence), else UNRESOLVED at the mean of
all iterations' convergence values. -/
theorem C8_debate_loop (context : Context) (r : HarmonyResult)
    (h : DebateEngine.run context = some r) :
    (DebateEngine.history context).length ≤ 5 ∧
    (∀ it ∈ DebateEngine.history context,
      it.convergence = max 0 (1 - |it.noble.entropy - it.adversary.entropy| -
        (if it.noble.axiom_consistent = false then 0.2 else 0))) ∧
    (r.status = "CONSENSUS" →
      ∃ it ∈ DebateEngine.history context,
        it.convergence ≥ 0.85 ∧ it.paradox_detected = false ∧
        r.final_convergence = it.convergence) ∧
    (r.status ≠ "CONSENSUS" →
      ∃ last, (DebateEngine.history context).getLast? = some last ∧
        (r.status = "BEDROCK" ↔ last.paradox_detected = true) ∧
        (last.paradox_detected = true →
          r.status = "BEDROCK" ∧ r.final_convergence = last.convergence) ∧
        (last.paradox_detected = false →
          r.status = "UNRESOLVED" ∧
          r.final_convergence =
            ((DebateEngine.history context).map DebateIteration.convergence).sum /
              (((DebateEngine.history context).length : Nat) : ℚ))) := by
  have hform : ∀ it ∈ DebateEngine.history context,
      it.convergence = max 0 (1 - |it.noble.entropy - it.adversary.entropy| -
        (if it.noble.axiom_consistent = false then 0.2 else 0)) := by
    by_cases hc : (DebateEngine.step context 1).convergence ≥ 0.85 ∧
        (DebateEngine.step context 1).paradox_detected = false
    · rw [(run_consensus context hc).2]
      intro it hit
      rw [List.mem_singleton] at hit
      subst hit
      exact step_convergence_formula context 1
    · rw [(run_no_consensus context hc).1]
      intro it hit
      simp only [List.mem_cons, List.not_mem_nil, or_false] at hit
      rcases hit with rfl | rfl | rfl | rfl | rfl
      · exact step_convergence_formula context 1
      · exact step_convergence_formula context 2
      · exact step_convergence_formula context 3
      · exact step_convergence_formula context 4
      · exact step_convergence_formula context 5
  by_cases hc : (DebateEngine.step context 1).convergence ≥ 0.85 ∧
      (DebateEngine.step context 1).paradox_detected = false
  · obtain ⟨hrun, hhist⟩ := run_consensus context hc
    have hr : r = { status := "CONSENSUS"
                    justification := "Sufficient convergence achieved without axiom violation."
                    final_convergence := (DebateEngine.step context 1).convergence } :=
      Option.some_injective _ (h.symm.trans hrun)
    subst hr
    refine ⟨by rw [hhist]; simp, hform, ?_, ?_⟩
    · intro _
      exact ⟨DebateEngine.step context 1, by rw [hhist]; simp, hc.1, hc.2, rfl⟩
    · intro hne
      exact absurd rfl hne
  · have hhist := (run_no_consensus context hc).1
    have hlast : (DebateEngine.history context).getLast? =
        some (DebateEngine.step context 5) := by
      rw [hhist]
      rfl
    by_cases hp : (DebateEngine.step context 1).paradox_detected = true
    · have hrun := run_bedrock context hc hp
      have hr : r = { status := "BEDROCK"
                      justification := "Irreducible moral paradox detected. No non-arbitrary synthesis possible under current axioms."
                      final_convergence := (DebateEngine.step context 1).convergence } :=
        Option.some_injective _ (h.symm.trans hrun)
      subst hr
      refine ⟨by rw [hhist]; simp, hform, ?_, ?_⟩
      · intro habs
        simp at habs
      · intro _
        refine ⟨DebateEngine.step context 5, hlast, ?_, ?_, ?_⟩
        · simp only [step_par_eq, hp]
        · intro _
          exact ⟨rfl, (step_conv_eq context 5).symm⟩
        · intro habs
          rw [step_par_eq, hp] at habs
          exact absurd habs (by decide)
    · have hp' : (DebateEngine.step context 1).paradox_detected = false :=
        Bool.eq_false_iff.mpr hp
      have hrun := run_unresolved context hc hp'
      have hr : r = { status := "UNRESOLVED"
                      justification := "Debate exhausted without convergence. Conflict preserved as epistemic artifact."
                      final_convergence := (DebateEngine.step context 1).convergence } :=
        Option.some_injective _ (h.symm.trans hrun)
      subst hr
      refine ⟨by rw [hhist]; simp, hform, ?_, ?_⟩
      · intro habs
        simp at habs
      · intro _
        refine ⟨DebateEngine.step context 5, hlast, ?_, ?_, ?_⟩
        · rw [step_par_eq, hp']
          simp
        · intro habs
          rw [step_par_eq, hp'] at habs
          exact absurd habs (by decide)
        · intro _
          exact ⟨rfl, (history_mean context hc).symm⟩

/-- C8 (witness): on the empty context the loop reaches consensus in its
first iteration, at convergence 1. -/
theorem C8_debate_loop_witness :
    (DebateEngine.history {}).length ≤ 5 ∧
    ∃ it ∈ DebateEngine.history {},
      it.convergence ≥ 0.85 ∧ it.paradox_detected = false ∧
      (1 : ℚ) = it.convergence := by
  have h := C8_debate_loop {}
    { status := "CONSENSUS"
      justification := "Sufficient convergence achieved without axiom violation."
      final_convergence := 1 }
    (by with_unfolding_all decide)
  exact ⟨h.1, h.2.2.1 rfl⟩

/-- C10: the debate stances are deterministic in the context and the
context is never modified, so a full run is equivalent to evaluating one
iteration — the status equals the single-iteration status, the reported
final convergence equals that iteration's convergence in every outcome,
and a CONSENSUS run stopped at iteration 1. -/
theorem C10_debate_single_iteration (context : Context) (r : HarmonyResult)
    (h : DebateEngine.run context = some r) :
    r.status = debateSingleIterationStatus context ∧
    r.final_convergence = (DebateEngine.step context 1).convergence ∧
    (r.status = "CONSENSUS" →
      DebateEngine.history context = [DebateEngine.step context 1]) := by
  by_cases hc : (DebateEngine.step context 1).convergence ≥ 0.85 ∧
      (DebateEngine.step context 1).paradox_detected = false
  · obtain ⟨hrun, hhist⟩ := run_consensus context hc
    have hr : r = { status := "CONSENSUS"
                    justification := "Sufficient convergence achieved without axiom violation."
                    final_convergence := (DebateEngine.step context 1).convergence } :=
      Option.some_injective _ (h.symm.trans hrun)
    subst hr
    exact ⟨by rw [debateSingleIterationStatus, if_pos hc], rfl, fun _ => hhist⟩
  · by_cases hp : (DebateEngine.step context 1).paradox_detected = true
    · have hrun := run_bedrock context hc hp
      have hr : r = { status := "BEDROCK"
                      justification := "Irreducible moral paradox detected. No non-arbitrary synthesis possible under current axioms."
                      final_convergence := (DebateEngine.step context 1).convergence } :=
        Option.some_injective _ (h.symm.trans hrun)
      subst hr
      refine ⟨?_, rfl, ?_⟩
      · rw [debateSingleIterationStatus, if_neg hc, if_pos hp]
      · intro habs
        simp at habs
    · have hp' : (DebateEngine.step context 1).paradox_detected = false :=
        Bool.eq_false_iff.mpr hp
      have hrun := run_unresolved context hc hp'
      have hr : r = { status := "UNRESOLVED"
                      justification := "Debate exhausted without convergence. Conflict preserved as epistemic artifact."
                      final_convergence := (DebateEngine.step context 1).convergence } :=
        Option.some_injective _ (h.symm.trans hrun)
      subst hr
      refine ⟨?_, rfl, ?_⟩
      · rw [debateSingleIterationStatus, if_neg hc, if_neg hp]
      · intro habs
        simp at habs

/-- C10 (witness): on the empty context the run's status and final
convergence equal the single-iteration evaluation. -/
theorem C10_debate_single_iteration_witness :
    "CONSENSUS" = debateSingleIterationStatus {} ∧
    (1 : ℚ) = (DebateEngine.step {} 1).convergence := by
  have h := C10_debate_single_iteration {}
    { status := "CONSENSUS"
      justification := "Sufficient convergence achieved without axiom violation."
      final_convergence := 1 }
    (by with_unfolding_all decide)
  exact ⟨h.1, h.2.1⟩
